import Mathlib

/-!
Verification development for the Visual-Time-Series Reasoning Pipeline:
a shallow embedding in Lean 4 of the pipeline's components
(prompt builder, VLM client, image preparer, orchestrator views),
translated from the Python source, together with theorems settling
the specification's claims about them.
-/

namespace VTSR

/-! ### String utilities

Substring containment (Python's `in` on strings, and the implicit
"contains" of the spec's prompt claims) is modelled as list-infix on the
underlying character data. -/

/-- Proposition that `sub` occurs as a contiguous substring of `s`. -/
def ContainsSub (s sub : String) : Prop :=
  sub.data <:+: s.data

instance (s sub : String) : Decidable (ContainsSub s sub) :=
  inferInstanceAs (Decidable (sub.data <:+: s.data))

/-- Model of Python `"\n".join(parts)`. -/
def joinLines : List String → String
  | [] => ""
  | [p] => p
  | p :: q :: ps => p ++ "\n" ++ joinLines (q :: ps)

/-- Model of Python `str.strip()`: removes leading and trailing
whitespace. -/
def pyStrip (s : String) : String :=
  String.mk (((s.data.dropWhile Char.isWhitespace).reverse.dropWhile
    Char.isWhitespace).reverse)

/-- Model of Python `str.split(sep)` for a one-character separator,
on character lists. -/
def splitChar (sep : Char) : List Char → List (List Char)
  | [] => [[]]
  | c :: cs =>
    match splitChar sep cs with
    | [] => [[]]
    | g :: gs => if c = sep then [] :: g :: gs else (c :: g) :: gs

/-- Model of Python `str.lower()`. -/
def lowerStr (s : String) : String :=
  String.mk (s.data.map Char.toLower)

theorem String.data_append_eq (a b : String) : (a ++ b).data = a.data ++ b.data := rfl

theorem containsSub_of_mem {p : String} {ps : List String} (h : p ∈ ps) :
    ContainsSub (joinLines ps) p := by
  induction ps with
  | nil => simp at h
  | cons q qs ih =>
    cases qs with
    | nil =>
      simp at h
      subst h
      exact List.infix_rfl
    | cons r rs =>
      rcases List.mem_cons.mp h with h1 | h2
      · subst h1
        show p.data <:+: (p ++ "\n" ++ joinLines (r :: rs)).data
        rw [String.data_append_eq, String.data_append_eq]
        exact ((List.prefix_append p.data "\n".data).trans
          (List.prefix_append _ _)).isInfix
      · have h3 := ih h2
        show p.data <:+: (q ++ "\n" ++ joinLines (r :: rs)).data
        rw [String.data_append_eq]
        exact h3.trans (List.suffix_append _ _).isInfix

/-- Substring containment is transitive through an enclosing string. -/
theorem ContainsSub.trans {a b c : String} (h1 : ContainsSub a b)
    (h2 : ContainsSub b c) : ContainsSub a c :=
  List.IsInfix.trans h2 h1

/-- A string occurs inside itself. -/
theorem containsSub_refl (s : String) : ContainsSub s s := List.infix_rfl

/-- A string occurs inside `pre ++ s ++ post`. -/
theorem containsSub_append (pre s post : String) :
    ContainsSub (pre ++ s ++ post) s := by
  show s.data <:+: (pre ++ s ++ post).data
  rw [String.data_append_eq, String.data_append_eq]
  exact ⟨pre.data, post.data, by simp⟩

/-! ### Two-decimal price formatting

The source renders each context price with Python's `f"${price:.2f}"`.
Prices are modelled as an exact non-negative number of cents (the
format's two-decimal output), so that the fractional part is the pair of
decimal digits of `cents % 100`. -/

/-- The two fractional digits of a price given in cents: models the part
after the decimal point of Python `"{:.2f}".format`. -/
def fracPart (cents : Nat) : String :=
  String.mk [Nat.digitChar (cents % 100 / 10), Nat.digitChar (cents % 10)]

/-- Model of Python `"{:.2f}"` formatting of a non-negative price held as
an exact number of cents. -/
def fmt2f (cents : Nat) : String :=
  toString (cents / 100) ++ "." ++ fracPart cents

theorem fracPart_length (cents : Nat) : (fracPart cents).length = 2 := rfl

end VTSR

namespace VTSR.PromptTemplates

/-! ### Prompt Builder (`vlm_integration/prompt_templates.py`)

Each Python template string is embedded verbatim; the `{...}`-substituting
templates become Lean functions of their parameters. -/

/-- Embedding of `PromptTemplates.FINANCIAL_ANALYST_SYSTEM`. -/
def FINANCIAL_ANALYST_SYSTEM : String :=
  "You are an expert financial analyst AI assistant specializing in visual analysis of market dashboards and time-series data.\n\nYour capabilities:\n- Analyze price charts and identify trends (upward, downward, sideways)\n- Detect correlations between different commodities (gold, silver, oil)\n- Identify volatility patterns and significant price movements\n- Provide clear, actionable insights based on visual data\n- Explain complex financial patterns in simple terms\n\nWhen analyzing dashboard images:\n1. Focus on the actual chart data visible in the image\n2. Identify the time period shown\n3. Note any significant price changes or patterns\n4. Compare different commodities if relevant\n5. Be specific about what you observe\n\nAlways be:\n- Accurate: Only describe what you can clearly see\n- Concise: Provide focused, relevant answers\n- Helpful: Explain the significance of patterns\n- Cautious: Don\x27t make unsupported predictions"

/-- Embedding of `PromptTemplates.SNAPSHOT_SUMMARY_PROMPT`. -/
def SNAPSHOT_SUMMARY_PROMPT : String :=
  "Analyze this financial dashboard snapshot and provide a brief summary.\n\nFocus on:\n1. Current price levels for Gold, Silver, and Oil (from KPI cards)\n2. Recent price trends (from the line charts)\n3. Any notable patterns or significant changes\n4. The relative performance of each commodity\n\nProvide a 2-3 sentence summary that captures the key market state shown in this dashboard.\nBe specific about the values and trends you observe."

/-- Embedding of `PromptTemplates.DETAILED_ANALYSIS_PROMPT`. -/
def DETAILED_ANALYSIS_PROMPT : String :=
  "Perform a comprehensive analysis of this financial dashboard.\n\nAnalyze each section:\n\n1. KPI CARDS (Top Section):\n   - Current prices for Gold, Silver, Oil\n   - 24-hour changes (up/down indicators)\n\n2. COMPARISON CHARTS (Bar/Pie):\n   - Relative price levels\n   - Distribution of values\n\n3. TREND CHARTS (Line Charts):\n   - Gold price trend direction and pattern\n   - Silver price trend direction and pattern\n   - Oil price trend direction and pattern\n   - Any crossovers or divergences\n\n4. OVERALL MARKET STATE:\n   - Which commodities are performing well/poorly\n   - Volatility assessment\n   - Any correlations between commodities\n\nProvide a structured analysis with specific observations."

/-- Embedding of `PromptTemplates.CORRELATION_PROMPT_TEMPLATE` with its two
`format` parameters substituted. -/
def CORRELATION_PROMPT_TEMPLATE (commodity1 commodity2 : String) : String :=
  "Analyze the correlation between " ++ commodity1 ++ " and " ++ commodity2 ++
  " based on the charts in this dashboard.\n\nLook for:\n1. Do they move in the same direction (positive correlation)?\n2. Do they move in opposite directions (negative correlation)?\n3. Is there no clear relationship (no correlation)?\n\nExamine the trend charts and explain:\n- The visual pattern you observe\n- When the prices moved together or diverged\n- The strength of any correlation (strong, moderate, weak)\n\nProvide a clear explanation based on what you see in the charts."

/-- Embedding of `PromptTemplates.TREND_ANALYSIS_TEMPLATE` with its
`format` parameter substituted. -/
def TREND_ANALYSIS_TEMPLATE (commodity : String) : String :=
  "Analyze the " ++ commodity ++
  " price trend shown in this dashboard.\n\nFocus on:\n1. Overall direction (upward, downward, or sideways)\n2. Trend strength (steep or gradual)\n3. Any reversal points or significant changes\n4. Recent momentum (accelerating or decelerating)\n5. Current price level relative to the trend\n\nDescribe the trend pattern and what it might indicate about market sentiment."

/-- Embedding of `PromptTemplates.VOLATILITY_ANALYSIS_PROMPT`. -/
def VOLATILITY_ANALYSIS_PROMPT : String :=
  "Assess the volatility of each commodity shown in this dashboard.\n\nFor each (Gold, Silver, Oil), examine:\n1. Price swing amplitude (high peaks vs low troughs)\n2. Frequency of price changes\n3. Stability vs instability of the trend line\n\nRank them from most to least volatile and explain your assessment."

/-- Fixed instruction block appended at the end of every chat prompt. -/
def CHAT_CLOSING_INSTRUCTIONS : String :=
  "Analyze the dashboard image to answer this question.\nBe specific about what you observe in the charts and KPI cards.\nIf the question asks about correlations, compare the trend lines."

/-- Header line opening the optional context block of a chat prompt. -/
def CONTEXT_HEADER : String := "Dashboard Context:"

/-- Tabular context handed to `build_chat_prompt`: the optional latest
date and the commodity-name to latest-price mapping (prices in exact
cents, see `fmt2f`); a commodity with `none` models a dict entry without
a `price` key. -/
structure ChatContext where
  latest_date : Option String
  commodities : List (String × Option Nat)

/-- Embedding of `PromptTemplates.build_chat_prompt`: assembles the list
`prompt_parts` (context block when context is present, then the question
line, then the closing instructions) and joins it with newlines. -/
def build_chat_prompt (user_question : String) (context : Option ChatContext) : String :=
  let contextParts : List String :=
    match context with
    | none => []
    | some ctx =>
      [CONTEXT_HEADER]
      ++ (match ctx.latest_date with
          | none => []
          | some d => ["- Data as of: " ++ d])
      ++ (ctx.commodities.filterMap (fun nd =>
            match nd.2 with
            | none => none
            | some price => some ("- " ++ nd.1 ++ ": $" ++ fmt2f price)))
      ++ [""]
  let prompt_parts : List String :=
    contextParts ++ ["User Question: " ++ user_question, "", CHAT_CLOSING_INSTRUCTIONS]
  joinLines prompt_parts

/-- Embedding of `PromptTemplates.build_correlation_prompt`. -/
def build_correlation_prompt (commodity1 commodity2 : String) : String :=
  CORRELATION_PROMPT_TEMPLATE commodity1 commodity2

/-- Embedding of `PromptTemplates.build_trend_prompt`. -/
def build_trend_prompt (commodity : String) : String :=
  TREND_ANALYSIS_TEMPLATE commodity

end VTSR.PromptTemplates

namespace VTSR.VLMClient

/-! ### VLM Client (`vlm_integration/vlm_client.py`)

The client is embedded as a pure function of an explicit `World` that
fixes the backend's reaction to the one tags probe and the one generate
request an invocation performs, and the filesystem contents.  Every
transport exception of the source (`Timeout`, `ConnectionError`, other)
is a constructor of the outcome types, so the embedded functions are
total by construction: no taxonomy error can escape as an uncaught
fault. -/

/-- Parsed JSON body of a `POST /api/generate` reply; a missing key is
`none` (Python `result.get`). -/
structure GenBody where
  response : Option String
  error : Option String
  eval_count : Option Nat
  total_duration : Option Nat
deriving DecidableEq

/-- Outcome of the single `POST /api/generate` exchange: an HTTP reply
whose body either parses (`Except.ok`) or raises a parse error with
message `e` (`Except.error e`), a transport timeout, a refused/lost
connection, or any other exception with `str(e) = msg`. -/
inductive GenOutcome
  | reply (status : Nat) (body : Except String GenBody)
  | timeout
  | connError
  | exn (msg : String)

/-- Outcome of the `GET /api/tags` availability probe; `models` is the
list of listed model `name` fields (a missing key modelled as `""`), or
a parse-error message. -/
inductive TagsOutcome
  | reply (status : Nat) (models : Except String (List String))
  | timeout
  | connError
  | exn (msg : String)

/-- Environment of one client invocation: the probe outcome, the raw
bytes the filesystem holds at each path (`none` when the path does not
exist or is unreadable), and the generate-request outcome.  The request
payload (model, final prompt, base64 image, fixed generation options) is
built by `analyze_image` exactly as in the source, but its wire effect
is abstracted into `generate`. -/
structure World where
  tags : TagsOutcome
  fs : String → Option (List Nat)
  generate : GenOutcome

/-- Connection parameters fixed at client construction. -/
structure Client where
  host : String
  model : String
  timeout : Nat

/-- Result dictionary of `analyze_image`: keys absent from a given
return path are `none`. -/
structure VLMResult where
  success : Bool
  response : Option String
  error : Option String
  model : Option String
  eval_count : Option Nat
  total_duration : Option Nat
deriving DecidableEq

/-- Standard base64 alphabet. -/
def base64Chars : List Char :=
  "ABCDEFGHIJKLMNOPQRSTUVWXYZabcdefghijklmnopqrstuvwxyz0123456789+/".data

/-- Character of the base64 alphabet at index `n`. -/
def b64Char (n : Nat) : Char := base64Chars.getD n 'A'

/-- Base64 encoding of a byte list (model of `base64.b64encode`). -/
def base64Encode : List Nat → String
  | [] => ""
  | [a] =>
    String.mk [b64Char (a / 4 % 64), b64Char (a % 4 * 16)] ++ "=="
  | [a, b] =>
    String.mk [b64Char (a / 4 % 64), b64Char (a % 4 * 16 + b / 16 % 16),
      b64Char (b % 16 * 4)] ++ "="
  | a :: b :: c :: rest =>
    String.mk [b64Char (a / 4 % 64), b64Char (a % 4 * 16 + b / 16 % 16),
      b64Char (b % 16 * 4 + c / 64 % 4), b64Char (c % 64)] ++ base64Encode rest

/-- Embedding of `OllamaVLMClient.encode_image`: `none` when the path
does not exist or reading fails, otherwise the base64 of the raw bytes. -/
def encode_image (w : World) (image_path : String) : Option String :=
  match w.fs image_path with
  | none => none
  | some bytes => some (base64Encode bytes)

/-- Python `name.split(":")[0]`. -/
def splitBase (s : String) : String :=
  String.mk ((splitChar ':' s.data).headD [])

/-- Embedding of `OllamaVLMClient.is_available`. -/
def is_available (c : Client) (w : World) : Bool × String :=
  match w.tags with
  | .timeout => (false, "Ollama server timeout")
  | .connError => (false, "Cannot connect to Ollama. Is it running? Start with: ollama serve")
  | .exn msg => (false, "Error checking Ollama: " ++ msg)
  | .reply status body =>
    if status ≠ 200 then
      (false, "Ollama server returned status " ++ toString status)
    else
      match body with
      | .error e => (false, "Error checking Ollama: " ++ e)
      | .ok entries =>
        let models := entries.map splitBase
        let model_names := entries
        if c.model ∈ models ∨ (c.model ++ ":latest") ∈ model_names then
          (true, "Ollama is running and model is available")
        else
          let model_base := splitBase c.model
          if models.any (fun m => decide (ContainsSub m model_base)) then
            (true, "Ollama is running and model is available")
          else
            (false, "Model \x27" ++ c.model ++ "\x27 not found. Available: " ++ toString models)

/-- Failure-shaped result dictionary (`success: False, response: None`). -/
def failResult (msg : String) : VLMResult :=
  ⟨false, none, some msg, none, none, none⟩

/-- Embedding of `OllamaVLMClient.analyze_image`: availability check,
image encoding (Python truthiness: `None` and `""` both fail), system
prompt concatenation (skipped for `None` and for `""`), then the
generate exchange with its status / empty-response / exception
classification. -/
def analyze_image (c : Client) (w : World) (image_path prompt : String)
    (system_prompt : Option String) : VLMResult :=
  let avail := is_available c w
  if !avail.1 then
    failResult avail.2
  else
    match encode_image w image_path with
    | none => failResult ("Failed to load image: " ++ image_path)
    | some image_b64 =>
      if image_b64 = "" then
        failResult ("Failed to load image: " ++ image_path)
      else
        let _full_prompt : String :=
          match system_prompt with
          | none => prompt
          | some sp => if sp = "" then prompt else sp ++ "\n\n" ++ prompt
        match w.generate with
        | .timeout =>
          failResult ("Request timed out after " ++ toString c.timeout ++ "s. Try a simpler question.")
        | .connError =>
          failResult "Lost connection to Ollama. Is it still running?"
        | .exn msg => failResult ("Unexpected error: " ++ msg)
        | .reply status body =>
          if status ≠ 200 then
            let default_msg := "Ollama returned status " ++ toString status
            failResult (match body with
              | .error _ => default_msg
              | .ok b => match b.error with
                | some e => e
                | none => default_msg)
          else
            match body with
            | .error e => failResult ("Unexpected error: " ++ e)
            | .ok result =>
              let ai_response := result.response.getD ""
              if ai_response = "" then
                failResult "Empty response from Ollama"
              else
                ⟨true, some (pyStrip ai_response), none, some c.model,
                  some (result.eval_count.getD 0), some (result.total_duration.getD 0)⟩

/-- Embedding of `OllamaVLMClient.chat`: builds the chat prompt and the
analyst persona, then delegates to `analyze_image`. -/
def chat (c : Client) (w : World) (question image_path : String)
    (context : Option PromptTemplates.ChatContext) : VLMResult :=
  analyze_image c w image_path (PromptTemplates.build_chat_prompt question context)
    (some PromptTemplates.FINANCIAL_ANALYST_SYSTEM)

/-- Embedding of `OllamaVLMClient.generate_snapshot_summary`. -/
def generate_snapshot_summary (c : Client) (w : World) (image_path : String) : VLMResult :=
  analyze_image c w image_path PromptTemplates.SNAPSHOT_SUMMARY_PROMPT
    (some PromptTemplates.FINANCIAL_ANALYST_SYSTEM)

end VTSR.VLMClient

namespace VTSR.ImageProcessor

/-! ### Image Preparer (`vlm_integration/image_processor.py`)

The filesystem is an explicit map from paths to file metadata, a path
being the pair of its containing directory and its filename.  PIL
availability is an explicit capability flag, and image parsing is an
`Except` (failure carries the exception text).  Pixel arithmetic of the
resize (Python `int(h * (max_dim / w))`) is modelled as exact natural
floor division.  Filesystem writes performed by a call are returned
explicitly as a list. -/

/-- Filesystem path: containing directory plus filename. -/
structure FilePath where
  dir : String
  name : String
deriving DecidableEq

/-- Rendering of a path as a string. -/
def pathStr (p : FilePath) : String := p.dir ++ "/" ++ p.name

/-- Python `pathlib.Path.suffix`: the final extension including its dot,
empty when the name has no internal dot. -/
def suffixOf (name : String) : String :=
  let parts := splitChar '.' name.data
  match parts with
  | [] => ""
  | [_] => ""
  | first :: _ =>
    let last := String.mk (parts.getLastD [])
    if last = "" then ""
    else if parts.length = 2 ∧ first = [] then ""
    else "." ++ last

/-- Pixel data PIL reports for a parsed image. -/
structure ImgInfo where
  width : Nat
  height : Nat
  mode : String
deriving DecidableEq

/-- Metadata of an existing filesystem entry; `img` is the PIL parse
outcome (`Except.error e` models PIL raising with text `e`). -/
structure FileInfo where
  isFile : Bool
  size : Nat
  img : Except String ImgInfo

/-- Filesystem contents: `none` at paths that do not exist. -/
def FS := FilePath → Option FileInfo

/-- Embedding of `ImageProcessor.SUPPORTED_FORMATS`. -/
def SUPPORTED_FORMATS : List String := [".png", ".jpg", ".jpeg", ".webp"]

/-- Embedding of `ImageProcessor.TARGET_MAX_DIMENSION`. -/
def TARGET_MAX_DIMENSION : Nat := 1024

/-- Processor state fixed at construction: the snapshots directory
(`media_root / "snapshots"`). -/
structure Processor where
  snapshots_dir : String

/-- Embedding of `ImageProcessor.validate_image`; `pil` is the
`PIL_AVAILABLE` capability flag. -/
def validate_image (pil : Bool) (fs : FS) (image_path : FilePath) : Bool × String :=
  match fs image_path with
  | none => (false, "Image not found: " ++ pathStr image_path)
  | some info =>
    if !info.isFile then
      (false, "Not a file: " ++ pathStr image_path)
    else if lowerStr (suffixOf image_path.name) ∉ SUPPORTED_FORMATS then
      (false, "Unsupported format: " ++ suffixOf image_path.name)
    else if info.size < 1000 then
      (false, "Image file too small, might be corrupted")
    else if info.size > 50000000 then
      (false, "Image file too large for processing")
    else if pil then
      match info.img with
      | .error e => (false, "Invalid image file: " ++ e)
      | .ok img =>
        if img.width < 100 ∨ img.height < 100 then
          (false, "Image dimensions too small")
        else
          (true, "Image is valid")
    else
      (true, "Image is valid")

/-- Result of one `prepare_for_vlm` call: the returned path (if any),
the status message, and the list of files the call wrote. -/
structure PrepareResult where
  path : Option FilePath
  message : String
  writes : List (FilePath × ImgInfo)
deriving DecidableEq

/-- Resolution of the `max_dimension` argument: Python
`max_dimension or self.TARGET_MAX_DIMENSION` falls back on both `None`
and `0`. -/
def resolveMaxDim (max_dimension : Option Nat) : Nat :=
  match max_dimension with
  | none => TARGET_MAX_DIMENSION
  | some d => if d = 0 then TARGET_MAX_DIMENSION else d

/-- New dimensions of the resize step, preserving aspect ratio so that
the longer side becomes `max_dim`: Python computes
`int(height * (max_dim / width))` (respectively for the other side) in
floating point; the embedding uses exact natural floor division,
`height * max_dim / width`, which agrees up to the claims' rounding
tolerances. -/
def resizeDims (width height max_dim : Nat) : Nat × Nat :=
  if width > height then (max_dim, height * max_dim / width)
  else (width * max_dim / height, max_dim)

/-- Embedding of `ImageProcessor.prepare_for_vlm`. -/
def prepare_for_vlm (pil : Bool) (proc : Processor) (fs : FS)
    (image_path : FilePath) (max_dimension : Option Nat) : PrepareResult :=
  let max_dim := resolveMaxDim max_dimension
  let v := validate_image pil fs image_path
  if !v.1 then
    ⟨none, v.2, []⟩
  else if !pil then
    ⟨some image_path, "PIL not available, using original image", []⟩
  else
    match fs image_path with
    | none => ⟨none, "Processing failed: no such file", []⟩
    | some info =>
      match info.img with
      | .error e => ⟨none, "Processing failed: " ++ e, []⟩
      | .ok img =>
        let width := img.width
        let height := img.height
        if width ≤ max_dim ∧ height ≤ max_dim then
          ⟨some image_path, "Image already optimal size", []⟩
        else
          let new_width := (resizeDims width height max_dim).1
          let new_height := (resizeDims width height max_dim).2
          let processed_name := "processed_" ++ image_path.name
          let processed_path : FilePath := ⟨proc.snapshots_dir, processed_name⟩
          let resized_mode :=
            if img.mode = "RGBA" ∧ lowerStr (suffixOf processed_name) ∈ [".jpg", ".jpeg"] then
              "RGB"
            else img.mode
          ⟨some processed_path,
            "Resized from " ++ toString width ++ "x" ++ toString height ++
              " to " ++ toString new_width ++ "x" ++ toString new_height,
            [(processed_path, ⟨new_width, new_height, resized_mode⟩)]⟩

/-- One entry of the snapshots directory as `iterdir` yields it. -/
structure DirEntry where
  name : String
  isFile : Bool
  mtime : Nat
deriving DecidableEq

/-- File filter of `list_snapshots`: regular file with supported suffix. -/
def isSupportedSnapshot (e : DirEntry) : Bool :=
  e.isFile && SUPPORTED_FORMATS.contains (lowerStr (suffixOf e.name))

/-- Insertion step of the stable descending-by-mtime sort. -/
def insertDesc (e : DirEntry) : List DirEntry → List DirEntry
  | [] => [e]
  | x :: xs => if x.mtime ≤ e.mtime then e :: x :: xs else x :: insertDesc e xs

/-- Stable sort by modification time, newest first: model of Python
`snapshots.sort(key=lambda x: x[1], reverse=True)` (Timsort is stable,
so entries with equal mtime keep their `iterdir` order). -/
def sortByMtimeDesc : List DirEntry → List DirEntry
  | [] => []
  | e :: xs => insertDesc e (sortByMtimeDesc xs)

/-- Embedding of `ImageProcessor.list_snapshots`: the directory contents
are given as the list `entries` in `iterdir` order; a missing directory
is the flag `dirExists = false`. -/
def list_snapshots (dirExists : Bool) (entries : List DirEntry) : List DirEntry :=
  if !dirExists then []
  else sortByMtimeDesc (entries.filter isSupportedSnapshot)

/-- Embedding of `ImageProcessor.get_latest_snapshot`. -/
def get_latest_snapshot (dirExists : Bool) (entries : List DirEntry) : Option DirEntry :=
  (list_snapshots dirExists entries).head?

end VTSR.ImageProcessor

namespace VTSR.Views

open VTSR.VLMClient

/-! ### Orchestrator (`dashboard/views.py`)

The snapshot table is an explicit list of records; Django lookups become
list operations.  Each endpoint is a pure function of the client, the
world, the table, and the parsed request body; it returns the JSON
response, the snapshot record as it stands after the call (so that
persistence is an observable effect), and for the network-facing
endpoints the list of `analyze_image` invocations performed. -/

/-- Snapshot database record (`dashboard/models.py`); `image` is the
stored file path, `none` when the field is falsy. -/
structure Snapshot where
  id : Nat
  created_at : Nat
  image : Option String
  ai_summary : String
  ai_analyzed : Bool
  ai_analysis_error : String
deriving DecidableEq

/-- Generic JSON payload produced by the endpoints; keys an endpoint
does not emit are `none`. -/
structure JsonResponse where
  status : Nat
  success : Bool
  error : Option String
  answer : Option String
  snapshot_used : Option Nat
  model : Option String
  analysis_type : Option String
deriving DecidableEq

/-- Model of `Snapshot.objects.get(id=i)`. -/
def getById (db : List Snapshot) (i : Nat) : Option Snapshot :=
  db.find? (fun s => s.id == i)

/-- Model of `Snapshot.objects.order_by("-created_at").first()`: the
first record (in table order) carrying the maximal creation time. -/
def latestSnapshot (db : List Snapshot) : Option Snapshot :=
  db.foldl (fun acc s =>
    match acc with
    | none => some s
    | some t => if s.created_at > t.created_at then some s else some t) none

/-- Shared snapshot-resolution step of `vlm_chat` and `vlm_analyze`:
an explicit truthy id is looked up (404 on a miss), otherwise the most
recent snapshot is used (404 when the table is empty).  The
`no-snapshots` message differs between the two endpoints, so it is a
parameter. -/
def resolveSnapshot (db : List Snapshot) (snapshot_id : Option Nat)
    (noneMsg : String) : Except JsonResponse Snapshot :=
  let fromLatest : Except JsonResponse Snapshot :=
    match latestSnapshot db with
    | none => .error ⟨404, false, some noneMsg, none, none, none, none⟩
    | some s => .ok s
  match snapshot_id with
  | none => fromLatest
  | some i =>
    if i = 0 then fromLatest
    else
      match getById db i with
      | none => .error ⟨404, false, some ("Snapshot " ++ toString i ++ " not found"),
          none, none, none, none⟩
      | some s => .ok s

/-- Write-back step of `generate_ai_summary_for_snapshot` once the
client returned `result`: on success store the text, mark analyzed and
clear the error; on failure mark analyzed and record the error. -/
def applySummaryResult (s : Snapshot) (result : VLMResult) : Snapshot :=
  if result.success then
    { s with
      ai_summary := result.response.getD ""
      ai_analyzed := true
      ai_analysis_error := "" }
  else
    { s with
      ai_analyzed := true
      ai_analysis_error := result.error.getD "Unknown error" }

/-- Text of the exception raised by `snapshot.image.path` when the
record has no image file (caught by the surrounding `except`). -/
def NO_IMAGE_EXC : String := "The image attribute has no file associated with it."

/-- Embedding of `generate_ai_summary_for_snapshot`: runs the client's
snapshot summary on the record's image and persists the outcome; an
exception while resolving the image path only records the error text. -/
def generate_ai_summary_for_snapshot (c : Client) (w : World) (s : Snapshot) : Snapshot :=
  match s.image with
  | none => { s with ai_analysis_error := NO_IMAGE_EXC }
  | some path => applySummaryResult s (generate_snapshot_summary c w path)

/-- Observable outcome of one `vlm_chat` call: the JSON response, the
resolved snapshot record after the call, and how many VLM-client
requests were issued. -/
structure ChatOutcome where
  resp : JsonResponse
  snapshot_after : Option Snapshot
  vlm_calls : Nat
deriving DecidableEq

/-- Embedding of the `vlm_chat` endpoint. -/
def vlm_chat (c : Client) (w : World) (db : List Snapshot)
    (ctx : Option PromptTemplates.ChatContext)
    (question_raw : String) (snapshot_id : Option Nat) : ChatOutcome :=
  let question := pyStrip question_raw
  if question = "" then
    ⟨⟨400, false, some "Please provide a question", none, none, none, none⟩, none, 0⟩
  else
    match resolveSnapshot db snapshot_id
        "No snapshots available. Please save a dashboard snapshot first." with
    | .error r => ⟨r, none, 0⟩
    | .ok snapshot =>
      match snapshot.image with
      | none =>
        ⟨⟨404, false, some "Snapshot image not found on disk", none, none, none, none⟩,
          some snapshot, 0⟩
      | some path =>
        if (w.fs path).isNone then
          ⟨⟨404, false, some "Snapshot image not found on disk", none, none, none, none⟩,
            some snapshot, 0⟩
        else
          let result := VLMClient.chat c w question path ctx
          if result.success then
            ⟨⟨200, true, none, result.response, some snapshot.id, result.model, none⟩,
              some snapshot, 1⟩
          else
            ⟨⟨500, false, some (result.error.getD "VLM analysis failed"), none, none,
              none, none⟩, some snapshot, 1⟩

/-- Observable outcome of one `vlm_analyze` call: the JSON response, the
resolved snapshot record after the call (including any persisted
analysis), and the `analyze_image` invocations as
(image path, prompt, system prompt) triples. -/
structure AnalyzeOutcome where
  resp : JsonResponse
  snapshot_after : Option Snapshot
  calls : List (String × String × String)
deriving DecidableEq

/-- Prompt selection of `vlm_analyze` (`analysis_type` already defaulted
to `"full"` by `data.get`). -/
def analysisPrompt (analysisType : String) : String :=
  if analysisType = "trends" then
    PromptTemplates.TREND_ANALYSIS_TEMPLATE "all commodities"
  else if analysisType = "correlation" then
    PromptTemplates.CORRELATION_PROMPT_TEMPLATE "gold" "oil"
  else if analysisType = "volatility" then
    PromptTemplates.VOLATILITY_ANALYSIS_PROMPT
  else
    PromptTemplates.DETAILED_ANALYSIS_PROMPT

/-- Embedding of the `vlm_analyze` endpoint. -/
def vlm_analyze (c : Client) (w : World) (db : List Snapshot)
    (snapshot_id : Option Nat) (analysis_type : Option String) : AnalyzeOutcome :=
  let analysisType := analysis_type.getD "full"
  match resolveSnapshot db snapshot_id "No snapshots available" with
  | .error r => ⟨r, none, []⟩
  | .ok snapshot =>
    match snapshot.image with
    | none =>
      ⟨⟨404, false, some "Snapshot image not found", none, none, none, none⟩,
        some snapshot, []⟩
    | some path =>
      if (w.fs path).isNone then
        ⟨⟨404, false, some "Snapshot image not found", none, none, none, none⟩,
          some snapshot, []⟩
      else
        let prompt := analysisPrompt analysisType
        let result := analyze_image c w path prompt
          (some PromptTemplates.FINANCIAL_ANALYST_SYSTEM)
        let calls := [(path, prompt, PromptTemplates.FINANCIAL_ANALYST_SYSTEM)]
        if result.success then
          let snapshot' :=
            if snapshot.ai_summary = "" then
              { snapshot with
                ai_summary := result.response.getD ""
                ai_analyzed := true }
            else snapshot
          ⟨⟨200, true, none, result.response, some snapshot.id, none, some analysisType⟩,
            some snapshot', calls⟩
        else
          ⟨⟨500, false, some (result.error.getD "Analysis failed"), none, none, none,
            none⟩, some snapshot, calls⟩

/-- Embedding of the `vlm_regenerate_summary` endpoint: requires a
truthy `snapshot_id`, reruns `generate_ai_summary_for_snapshot`, and
reports the refreshed record. -/
def vlm_regenerate_summary (c : Client) (w : World) (db : List Snapshot)
    (snapshot_id : Option Nat) : JsonResponse × Option Snapshot :=
  let required : JsonResponse × Option Snapshot :=
    (⟨400, false, some "snapshot_id is required", none, none, none, none⟩, none)
  match snapshot_id with
  | none => required
  | some i =>
    if i = 0 then required
    else
      match getById db i with
      | none =>
        (⟨404, false, some ("Snapshot " ++ toString i ++ " not found"), none, none,
          none, none⟩, none)
      | some s =>
        let s' := generate_ai_summary_for_snapshot c w s
        (⟨200, true, (if s'.ai_analysis_error = "" then none else some s'.ai_analysis_error),
          some s'.ai_summary, none, none, none⟩, some s')

end VTSR.Views

namespace VTSR

/-! ### Helper lemmas -/

/-- An infix of `a ++ b` lies in `a`, lies in `b`, or straddles the
boundary (a nonempty suffix of `a` followed by a nonempty prefix of `b`). -/
theorem infix_append_cases {α : Type} {H a b : List α} (h : H <:+: a ++ b) :
    H <:+: a ∨ H <:+: b ∨
      ∃ H₁ H₂, H = H₁ ++ H₂ ∧ H₁ ≠ [] ∧ H₂ ≠ [] ∧ H₁ <:+ a ∧ H₂ <+: b := by
  obtain ⟨s, t, hst⟩ := h
  rcases List.append_eq_append_iff.mp hst with ⟨m, hm1, hm2⟩ | ⟨m, hm1, hm2⟩
  · left
    exact ⟨s, m, by rw [hm1, List.append_assoc]⟩
  · rcases List.append_eq_append_iff.mp hm1 with ⟨k, hk1, hk2⟩ | ⟨k, hk1, hk2⟩
    · rcases eq_or_ne k [] with hk | hk
      · right; left
        subst hk
        simp at hk2
        exact hk2 ▸ (hm2 ▸ List.prefix_append m t).isInfix
      · rcases eq_or_ne m [] with hm | hm
        · left
          subst hm
          simp at hk2
          exact ⟨s, [], by simp [hk1, hk2]⟩
        · right; right
          exact ⟨k, m, hk2, hk, hm, hk1 ▸ List.suffix_append s k,
            hm2 ▸ List.prefix_append m t⟩
    · right; left
      exact ⟨k, t, by rw [hm2, hk2, List.append_assoc]⟩

/-- A nonempty prefix starts with the same element as the whole list. -/
theorem head_eq_of_prefix {α : Type} {l m : List α} (h : l <+: m) (hne : l ≠ []) :
    l.head? = m.head? := by
  obtain ⟨t, rfl⟩ := h
  cases l with
  | nil => exact absurd rfl hne
  | cons x xs => rfl

/-- Appending cannot erase a nonempty left part. -/
theorem append_ne_empty {a : String} (b : String) (h : a ≠ "") : a ++ b ≠ "" := by
  intro he
  apply h
  have hd : a.data ++ b.data = [] := congrArg String.data he
  have ha : a.data = [] := (List.append_eq_nil.mp hd).1
  cases a
  simp at ha
  simp [ha]

end VTSR

namespace VTSR.ImageProcessor

/-- Membership in the insertion step. -/
theorem mem_insertDesc {e x : DirEntry} {l : List DirEntry} :
    x ∈ insertDesc e l ↔ x = e ∨ x ∈ l := by
  induction l with
  | nil => simp [insertDesc]
  | cons y ys ih =>
    by_cases hc : y.mtime ≤ e.mtime
    · simp [insertDesc, hc]
    · simp only [insertDesc, if_neg hc, List.mem_cons, ih]
      tauto

/-- Inserting never yields the empty list. -/
theorem insertDesc_ne_nil (e : DirEntry) (l : List DirEntry) : insertDesc e l ≠ [] := by
  cases l with
  | nil => simp [insertDesc]
  | cons y ys =>
    by_cases hc : y.mtime ≤ e.mtime <;> simp [insertDesc, hc]

/-- The sort preserves membership. -/
theorem mem_sortByMtimeDesc {x : DirEntry} {l : List DirEntry} :
    x ∈ sortByMtimeDesc l ↔ x ∈ l := by
  induction l with
  | nil => simp [sortByMtimeDesc]
  | cons e es ih => simp [sortByMtimeDesc, mem_insertDesc, ih]

/-- The sort yields the empty list only on the empty list. -/
theorem sortByMtimeDesc_eq_nil_iff (l : List DirEntry) :
    sortByMtimeDesc l = [] ↔ l = [] := by
  cases l with
  | nil => simp [sortByMtimeDesc]
  | cons e es => simp [sortByMtimeDesc, insertDesc_ne_nil]

/-- The head of `insertDesc e l` is either `e`, dominating any head of
`l`, or the strictly newer head of `l`. -/
theorem head_insertDesc (e : DirEntry) (l : List DirEntry) :
    ((insertDesc e l).head? = some e ∧ ∀ y, l.head? = some y → y.mtime ≤ e.mtime)
    ∨ ∃ y, l.head? = some y ∧ (insertDesc e l).head? = some y ∧ e.mtime < y.mtime := by
  cases l with
  | nil =>
    left
    refine ⟨rfl, ?_⟩
    intro y hy
    simp at hy
  | cons x xs =>
    by_cases hc : x.mtime ≤ e.mtime
    · left
      refine ⟨by simp [insertDesc, hc], ?_⟩
      intro y hy
      have hxy : x = y := by simpa using hy
      exact hxy ▸ hc
    · right
      exact ⟨x, rfl, by simp [insertDesc, hc], by omega⟩

/-- The head of the sorted list dominates every modification time. -/
theorem head_sortByMtimeDesc_max {l : List DirEntry} {h : DirEntry}
    (hh : (sortByMtimeDesc l).head? = some h) : ∀ x ∈ l, x.mtime ≤ h.mtime := by
  induction l generalizing h with
  | nil => simp [sortByMtimeDesc] at hh
  | cons e xs ih =>
    intro x hx
    rw [sortByMtimeDesc] at hh
    rcases head_insertDesc e (sortByMtimeDesc xs) with ⟨h1, h2⟩ | ⟨y, hy1, hy2, hy3⟩
    · have he : h = e := by
        rw [h1] at hh
        exact (Option.some_inj.mp hh).symm
      subst he
      rcases List.mem_cons.mp hx with hx1 | hx2
      · simp [hx1]
      · rcases hs : (sortByMtimeDesc xs).head? with - | y
        · rcases hn : sortByMtimeDesc xs with - | ⟨z, zs⟩
          · have : xs = [] := (sortByMtimeDesc_eq_nil_iff xs).mp hn
            subst this
            simp at hx2
          · rw [hn] at hs
            simp at hs
        · have hxy := ih hs x hx2
          have := h2 y hs
          omega
    · have he : h = y := by
        rw [hy2] at hh
        exact (Option.some_inj.mp hh).symm
      subst he
      rcases List.mem_cons.mp hx with hx1 | hx2
      · subst hx1
        omega
      · exact ih hy1 x hx2

/-- The head of the sorted list is an element of the input. -/
theorem head_sortByMtimeDesc_mem {l : List DirEntry} {e : DirEntry}
    (h : (sortByMtimeDesc l).head? = some e) : e ∈ l := by
  rcases hs : sortByMtimeDesc l with - | ⟨z, zs⟩
  · rw [hs] at h; simp at h
  · rw [hs] at h
    simp at h
    subst h
    exact mem_sortByMtimeDesc.mp (by rw [hs]; exact List.mem_cons_self _ _)

end VTSR.ImageProcessor

namespace VTSR

open VLMClient Views ImageProcessor PromptTemplates

/-! ### Claim theorems -/

/-- Claim C3: when no snapshot identifier is supplied and no snapshots
exist at all, the orchestrator's chat operation (for a non-blank
question) returns a 404 failure with the "no snapshots available"
message, and the VLM client is invoked zero times — no availability
probe and no generation request happen. -/
theorem c3_chat_no_snapshots_notfound (c : Client) (w : World)
    (ctx : Option ChatContext) (q : String) (hq : pyStrip q ≠ "") :
    (vlm_chat c w [] ctx q none).resp.status = 404 ∧
    (vlm_chat c w [] ctx q none).resp.success = false ∧
    (vlm_chat c w [] ctx q none).resp.error =
      some "No snapshots available. Please save a dashboard snapshot first." ∧
    (vlm_chat c w [] ctx q none).vlm_calls = 0 := by
  simp [vlm_chat, hq, resolveSnapshot, latestSnapshot]

/-- Witness for C3 at a concrete request. -/
theorem c3_chat_no_snapshots_notfound_witness :
    pyStrip "is gold up?" ≠ "" ∧
    (vlm_chat ⟨"http://localhost:11434", "llava", 120⟩
      ⟨.connError, fun _ => none, .connError⟩ [] none "is gold up?" none).vlm_calls = 0 :=
  ⟨by decide,
    (c3_chat_no_snapshots_notfound ⟨"http://localhost:11434", "llava", 120⟩
      ⟨.connError, fun _ => none, .connError⟩ none "is gold up?" (by decide)).2.2.2⟩

/-- Claim C4: for a valid image (with image-library support) whose
longer side is at most the configured maximum dimension,
`prepare_for_vlm` returns the original path unchanged with the
no-resize message and performs no filesystem write. -/
theorem c4_prepare_small_image_unchanged (proc : Processor) (fs : FS)
    (p : ImageProcessor.FilePath) (md : Option Nat) (info : FileInfo) (img : ImgInfo)
    (hfs : fs p = some info) (himg : info.img = .ok img)
    (hvalid : (validate_image true fs p).1 = true)
    (hside : max img.width img.height ≤ resolveMaxDim md) :
    prepare_for_vlm true proc fs p md = ⟨some p, "Image already optimal size", []⟩ := by
  have hw : img.width ≤ resolveMaxDim md := le_trans (le_max_left _ _) hside
  have hh : img.height ≤ resolveMaxDim md := le_trans (le_max_right _ _) hside
  simp [prepare_for_vlm, hvalid, hfs, himg, hw, hh]

/-- Witness for C4 at a concrete 800 by 600 image. -/
theorem c4_prepare_small_image_unchanged_witness :
    prepare_for_vlm true ⟨"media/snapshots"⟩
      (fun q => if q = ⟨"media/snapshots", "snap.png"⟩ then
        some ⟨true, 5000, .ok ⟨800, 600, "RGB"⟩⟩ else none)
      ⟨"media/snapshots", "snap.png"⟩ none
      = ⟨some ⟨"media/snapshots", "snap.png"⟩, "Image already optimal size", []⟩ :=
  c4_prepare_small_image_unchanged ⟨"media/snapshots"⟩ _ _ none
    ⟨true, 5000, .ok ⟨800, 600, "RGB"⟩⟩ ⟨800, 600, "RGB"⟩ rfl rfl
    (by decide) (by decide)

/-- Claim C8: an analyze request with analysis type `correlation` (the
endpoint accepts no commodity parameters at all, so no explicit
commodities can be supplied) sends the VLM exactly one request whose
prompt is the correlation template instantiated with the gold/oil pair,
alongside the analyst system prompt. -/
theorem c8_correlation_defaults_gold_oil (c : Client) (w : World)
    (db : List Views.Snapshot) (sid : Option Nat) (s : Views.Snapshot) (path : String)
    (hres : resolveSnapshot db sid "No snapshots available" = .ok s)
    (him : s.image = some path) (hfs : (w.fs path).isSome = true) :
    (vlm_analyze c w db sid (some "correlation")).calls =
      [(path, build_correlation_prompt "gold" "oil", FINANCIAL_ANALYST_SYSTEM)] := by
  have hfs' : (w.fs path).isNone = false := by
    rcases hw : w.fs path with - | v
    · rw [hw] at hfs
      exact absurd hfs (by simp)
    · simp
  simp only [vlm_analyze, hres, him, Option.getD_some, hfs', Bool.false_eq_true,
    if_false]
  split <;> simp [analysisPrompt, build_correlation_prompt]

end VTSR

namespace VTSR

open VLMClient Views ImageProcessor PromptTemplates

/-- Witness for C8: one snapshot, no id given, correlation analysis. -/
theorem c8_correlation_defaults_gold_oil_witness :
    (vlm_analyze ⟨"http://localhost:11434", "llava", 120⟩
      ⟨.connError, fun p => if p = "media/snapshots/a.png" then some [1, 2, 3] else none,
        .connError⟩
      [⟨1, 10, some "media/snapshots/a.png", "", false, ""⟩] none
      (some "correlation")).calls =
      [("media/snapshots/a.png", build_correlation_prompt "gold" "oil",
        FINANCIAL_ANALYST_SYSTEM)] :=
  c8_correlation_defaults_gold_oil _ _ _ none
    ⟨1, 10, some "media/snapshots/a.png", "", false, ""⟩ "media/snapshots/a.png"
    rfl rfl rfl

/-- Claim C1: `analyze_image` yields a structured failure result (it is
a total function of the modelled world, so nothing is raised) whenever
the availability probe fails, the image path does not exist, the backend
answers HTTP 500, or the backend answers HTTP 200 with an empty
`response` field. -/
theorem c1_analyze_image_failure (c : Client) (w : World) (image_path prompt : String)
    (sp : Option String)
    (h : (is_available c w).1 = false ∨ w.fs image_path = none ∨
      (∃ body, w.generate = GenOutcome.reply 500 body) ∨
      (∃ b, w.generate = GenOutcome.reply 200 (.ok b) ∧ b.response.getD "" = "")) :
    (analyze_image c w image_path prompt sp).success = false ∧
    (analyze_image c w image_path prompt sp).response = none ∧
    ∃ msg, (analyze_image c w image_path prompt sp).error = some msg := by
  cases hav : (is_available c w).1 with
  | false => simp [analyze_image, hav, failResult]
  | true =>
    rcases henc : encode_image w image_path with - | b64
    · simp [analyze_image, hav, henc, failResult]
    · have hfs : w.fs image_path ≠ none := by
        intro hn
        rw [encode_image, hn] at henc
        exact Option.noConfusion henc
      by_cases hb : b64 = ""
      · simp [analyze_image, hav, henc, hb, failResult]
      · rcases h with h1 | h2 | ⟨body, h3⟩ | ⟨b, h4, h5⟩
        · rw [hav] at h1
          exact absurd h1 (by simp)
        · exact absurd h2 hfs
        · simp [analyze_image, hav, henc, hb, h3, failResult]
        · simp [analyze_image, hav, henc, hb, h4, h5, failResult]

/-- Witness for C1: backend connection refused. -/
theorem c1_analyze_image_failure_witness :
    (analyze_image ⟨"http://localhost:11434", "llava", 120⟩
      ⟨.connError, fun _ => none, .connError⟩ "snap.png" "p" none).success = false :=
  (c1_analyze_image_failure _ _ _ _ _ (.inl (by decide))).1

/-- Projection helper: the message slot of a result pair. -/
theorem snd_ne {b : Bool} {m : String} (h : m ≠ "") : (b, m).2 ≠ "" := h

/-- The status message of `is_available` is never the empty string. -/
theorem is_available_msg_ne (c : Client) (w : World) : (is_available c w).2 ≠ "" := by
  obtain ⟨tags, fs, gen⟩ := w
  rcases tags with ⟨status, body⟩ | - | - | msg
  · simp only [is_available]
    split
    · exact snd_ne (append_ne_empty _ (by decide))
    · rcases body with e | entries
      · exact snd_ne (append_ne_empty _ (by decide))
      · simp only []
        split
        · exact snd_ne (by decide)
        · split
          · exact snd_ne (by decide)
          · exact snd_ne (append_ne_empty _ (append_ne_empty _ (append_ne_empty _ (by decide))))
  · exact snd_ne (by decide)
  · exact snd_ne (by decide)
  · exact snd_ne (append_ne_empty _ (by decide))

/-- Claim C2 (amended): every result of `analyze_image` has exactly one
of its response text and its error message non-empty, provided the
backend never sends a 200 body whose `response` field is non-empty yet
whitespace-only, and never sends a non-200 body whose `error` field is
the empty string.  (The unamended claim fails on a whitespace-only
`response`: see the counterexample.) -/
theorem c2_result_invariant (c : Client) (w : World) (image_path prompt : String)
    (sp : Option String)
    (h200 : ∀ b, w.generate = GenOutcome.reply 200 (.ok b) →
      pyStrip (b.response.getD "") = "" → b.response.getD "" = "")
    (herr : ∀ st b e, w.generate = GenOutcome.reply st (.ok b) → st ≠ 200 →
      b.error = some e → e ≠ "") :
    ((analyze_image c w image_path prompt sp).response.getD "" ≠ "" ∧
      (analyze_image c w image_path prompt sp).error.getD "" = "") ∨
    ((analyze_image c w image_path prompt sp).response.getD "" = "" ∧
      (analyze_image c w image_path prompt sp).error.getD "" ≠ "") := by
  cases hav : (is_available c w).1 with
  | false =>
    right
    refine ⟨by simp [analyze_image, hav, failResult], ?_⟩
    have := is_available_msg_ne c w
    simp [analyze_image, hav, failResult]
    exact this
  | true =>
    rcases henc : encode_image w image_path with - | b64
    · right
      refine ⟨by simp [analyze_image, hav, henc, failResult], ?_⟩
      simp [analyze_image, hav, henc, failResult]
      exact append_ne_empty _ (by decide)
    · by_cases hb : b64 = ""
      · right
        refine ⟨by simp [analyze_image, hav, henc, hb, failResult], ?_⟩
        simp [analyze_image, hav, henc, hb, failResult]
        exact append_ne_empty _ (by decide)
      · rcases hgen : w.generate with ⟨status, body⟩ | - | - | msg
        · by_cases hst : status = 200
          · subst hst
            rcases body with e | b
            · right
              refine ⟨by simp [analyze_image, hav, henc, hb, hgen, failResult], ?_⟩
              simp [analyze_image, hav, henc, hb, hgen, failResult]
              exact append_ne_empty _ (by decide)
            · by_cases hresp : b.response.getD "" = ""
              · right
                refine ⟨by simp [analyze_image, hav, henc, hb, hgen, hresp, failResult], ?_⟩
                simp [analyze_image, hav, henc, hb, hgen, hresp, failResult]
              · left
                refine ⟨?_, by simp [analyze_image, hav, henc, hb, hgen, hresp, failResult]⟩
                have hstrip : pyStrip (b.response.getD "") ≠ "" := by
                  intro hcon
                  exact hresp (h200 b hgen hcon)
                simp [analyze_image, hav, henc, hb, hgen, hresp, failResult]
                exact hstrip
          · right
            refine ⟨by simp [analyze_image, hav, henc, hb, hgen, hst, failResult], ?_⟩
            simp only [analyze_image, hav, henc, hb, hgen]
            rcases body with e | b
            · simp [hst, failResult]
              exact append_ne_empty _ (by decide)
            · rcases hberr : b.error with - | e
              · simp [hst, hberr, failResult]
                exact append_ne_empty _ (by decide)
              · simp [hst, hberr, failResult]
                exact herr status b e hgen hst hberr
        · right
          refine ⟨by simp [analyze_image, hav, henc, hb, hgen, failResult], ?_⟩
          simp [analyze_image, hav, henc, hb, hgen, failResult]
          exact append_ne_empty _ (append_ne_empty _ (by decide))
        · right
          refine ⟨by simp [analyze_image, hav, henc, hb, hgen, failResult], ?_⟩
          simp [analyze_image, hav, henc, hb, hgen, failResult]
        · right
          refine ⟨by simp [analyze_image, hav, henc, hb, hgen, failResult], ?_⟩
          simp [analyze_image, hav, henc, hb, hgen, failResult]
          exact append_ne_empty _ (by decide)

/-- Counterexample to claim C2 as stated: an HTTP 200 reply whose
`response` field is a single space (non-empty, so it passes the source's
emptiness check, but it trims to empty) is returned as a success whose
response text is the empty string — both response and error end up
empty, and an empty text is reported as a valid answer. -/
theorem c2_result_invariant_counterexample :
    analyze_image ⟨"http://localhost:11434", "llava", 120⟩
      ⟨.reply 200 (.ok ["llava"]), fun _ => some [10, 20, 30],
        .reply 200 (.ok ⟨some " ", none, none, none⟩)⟩
      "snap.png" "p" none =
      ⟨true, some "", none, some "llava", some 0, some 0⟩ := by
  decide

/-- Witness for C2: a world whose generate call refuses the connection
satisfies both hypotheses vacuously. -/
theorem c2_result_invariant_witness :
    ((analyze_image ⟨"http://localhost:11434", "llava", 120⟩
        ⟨.connError, fun _ => none, .connError⟩ "snap.png" "p" none).response.getD "" ≠ "" ∧
      (analyze_image ⟨"http://localhost:11434", "llava", 120⟩
        ⟨.connError, fun _ => none, .connError⟩ "snap.png" "p" none).error.getD "" = "") ∨
    ((analyze_image ⟨"http://localhost:11434", "llava", 120⟩
        ⟨.connError, fun _ => none, .connError⟩ "snap.png" "p" none).response.getD "" = "" ∧
      (analyze_image ⟨"http://localhost:11434", "llava", 120⟩
        ⟨.connError, fun _ => none, .connError⟩ "snap.png" "p" none).error.getD "" ≠ "") :=
  c2_result_invariant _ _ _ _ _ (fun _ hb => nomatch hb) (fun _ _ _ hb => nomatch hb)

/-- Claim C10: when summary generation fails for a snapshot — also when
invoked through the regenerate endpoint, which runs the same write-back —
the stored `ai_summary` is left untouched; only the analyzed flag and
the error text change (and on the no-image exception path, only the
error text). -/
theorem c10_failed_summary_preserved (c : Client) (w : World)
    (db : List Views.Snapshot) (s : Views.Snapshot) :
    (∀ path, s.image = some path →
      (generate_snapshot_summary c w path).success = false →
      (generate_ai_summary_for_snapshot c w s).ai_summary = s.ai_summary ∧
      (generate_ai_summary_for_snapshot c w s).ai_analyzed = true ∧
      (generate_ai_summary_for_snapshot c w s).ai_analysis_error =
        (generate_snapshot_summary c w path).error.getD "Unknown error" ∧
      (generate_ai_summary_for_snapshot c w s).id = s.id ∧
      (generate_ai_summary_for_snapshot c w s).image = s.image ∧
      (generate_ai_summary_for_snapshot c w s).created_at = s.created_at) ∧
    (s.image = none →
      generate_ai_summary_for_snapshot c w s =
        { s with ai_analysis_error := NO_IMAGE_EXC }) ∧
    (∀ i, i ≠ 0 → getById db i = some s →
      (vlm_regenerate_summary c w db (some i)).2 =
        some (generate_ai_summary_for_snapshot c w s)) := by
  refine ⟨?_, ?_, ?_⟩
  · intro path him hfail
    simp [generate_ai_summary_for_snapshot, him, applySummaryResult, hfail]
  · intro him
    simp [generate_ai_summary_for_snapshot, him]
  · intro i hi hget
    simp [vlm_regenerate_summary, hi, hget]

/-- Witness for C10: a stored summary survives a failed regeneration
against an unreachable backend. -/
theorem c10_failed_summary_preserved_witness :
    (generate_ai_summary_for_snapshot ⟨"http://localhost:11434", "llava", 120⟩
        ⟨.connError, fun _ => none, .connError⟩
        ⟨1, 10, some "p.png", "old summary", true, ""⟩).ai_summary =
      (⟨1, 10, some "p.png", "old summary", true, ""⟩ : Views.Snapshot).ai_summary ∧
    (vlm_regenerate_summary ⟨"http://localhost:11434", "llava", 120⟩
        ⟨.connError, fun _ => none, .connError⟩
        [⟨1, 10, some "p.png", "old summary", true, ""⟩] (some 1)).2 =
      some (generate_ai_summary_for_snapshot ⟨"http://localhost:11434", "llava", 120⟩
        ⟨.connError, fun _ => none, .connError⟩
        ⟨1, 10, some "p.png", "old summary", true, ""⟩) :=
  ⟨((c10_failed_summary_preserved _ _ [] _).1 "p.png" rfl (by decide)).1,
    (c10_failed_summary_preserved ⟨"http://localhost:11434", "llava", 120⟩
      ⟨.connError, fun _ => none, .connError⟩
      [⟨1, 10, some "p.png", "old summary", true, ""⟩]
      ⟨1, 10, some "p.png", "old summary", true, ""⟩).2.2 1 (by decide) rfl⟩

/-- Counterexample to claim C9 as stated: two directories holding the
same two files with equal modification times, listed by `iterdir` in
different orders, give different latest snapshots — the tie-break is the
iteration order (Python stable sort), not a deterministic rule on the
file set such as lexicographic filename order. -/
theorem c9_latest_snapshot_counterexample :
    get_latest_snapshot true [⟨"b.png", true, 5⟩, ⟨"a.png", true, 5⟩] =
      some ⟨"b.png", true, 5⟩ ∧
    get_latest_snapshot true [⟨"a.png", true, 5⟩, ⟨"b.png", true, 5⟩] =
      some ⟨"a.png", true, 5⟩ := by
  decide

/-- Claim C9 (amended): `get_latest_snapshot` scans the directory's own
entries (non-recursive by construction) for regular files with supported
extensions and returns one carrying the maximal modification time, or
`none` exactly when there is no such file; ties among equal modification
times are broken by the directory iteration order (the stable sort keeps
the first-listed file), which is deterministic only for a fixed
iteration order — not lexicographic on filename. -/
theorem c9_latest_snapshot_max (dirExists : Bool) (entries : List DirEntry) :
    (get_latest_snapshot dirExists entries = none ↔
      (dirExists = false ∨ entries.filter isSupportedSnapshot = [])) ∧
    (∀ e, get_latest_snapshot dirExists entries = some e →
      e ∈ entries.filter isSupportedSnapshot ∧
      ∀ x ∈ entries.filter isSupportedSnapshot, x.mtime ≤ e.mtime) := by
  cases dirExists with
  | false =>
    constructor
    · simp [get_latest_snapshot, list_snapshots]
    · intro e he
      simp [get_latest_snapshot, list_snapshots] at he
  | true =>
    constructor
    · simp only [get_latest_snapshot, list_snapshots, Bool.not_true, Bool.false_eq_true,
        if_false, List.head?_eq_none_iff]
      rw [sortByMtimeDesc_eq_nil_iff]
      simp
    · intro e he
      simp only [get_latest_snapshot, list_snapshots, Bool.not_true, Bool.false_eq_true,
        if_false] at he
      exact ⟨head_sortByMtimeDesc_mem he, head_sortByMtimeDesc_max he⟩

/-- Witness for C9 on a directory with one supported and one unsupported
file. -/
theorem c9_latest_snapshot_max_witness :
    (⟨"a.png", true, 3⟩ : DirEntry) ∈
      [⟨"a.png", true, 3⟩, ⟨"readme.txt", true, 9⟩].filter isSupportedSnapshot ∧
    ∀ x ∈ [(⟨"a.png", true, 3⟩ : DirEntry),
      ⟨"readme.txt", true, 9⟩].filter isSupportedSnapshot,
      x.mtime ≤ (⟨"a.png", true, 3⟩ : DirEntry).mtime :=
  (c9_latest_snapshot_max true [⟨"a.png", true, 3⟩, ⟨"readme.txt", true, 9⟩]).2
    ⟨"a.png", true, 3⟩ (by decide)

/-- Counterexample to claim C5 as stated: for a valid oversized image
living outside the snapshots directory, the derivative is written under
the processor's snapshots directory, not "the same directory as the
original". -/
theorem c5_prepare_resize_counterexample :
    (prepare_for_vlm true ⟨"media/snapshots"⟩
      (fun q => if q = ⟨"tmp", "big.png"⟩ then
        some ⟨true, 5000, .ok ⟨2048, 1024, "RGB"⟩⟩ else none)
      ⟨"tmp", "big.png"⟩ none).path =
      some ⟨"media/snapshots", "processed_big.png"⟩ ∧
    (⟨"media/snapshots", "processed_big.png"⟩ : ImageProcessor.FilePath).dir ≠
      (⟨"tmp", "big.png"⟩ : ImageProcessor.FilePath).dir := by
  decide

/-- Bounds on the rounded side of the resize. -/
theorem resizeDims_le (width height max_dim : Nat) (hpos : 0 < max_dim)
    (hhpos : 0 < height ∨ width > height) :
    (width > height → (resizeDims width height max_dim).2 < max_dim) ∧
    (¬ width > height → (resizeDims width height max_dim).1 ≤ max_dim) := by
  constructor
  · intro hgt
    have hw : 0 < width := by omega
    simp only [resizeDims, if_pos hgt]
    rw [Nat.div_lt_iff_lt_mul hw, Nat.mul_comm max_dim width]
    exact mul_lt_mul_of_pos_right hgt hpos
  · intro hle
    have hh : 0 < height := by
      rcases hhpos with h | h
      · exact h
      · exact absurd h hle
    simp only [resizeDims, if_neg hle]
    calc width * max_dim / height ≤ height * max_dim / height :=
          Nat.div_le_div_right (Nat.mul_le_mul_right _ (by omega))
      _ = max_dim := Nat.mul_div_cancel_left _ hh

/-- The fallback maximum dimension is always positive. -/
theorem resolveMaxDim_pos (md : Option Nat) : 0 < resolveMaxDim md := by
  rcases md with - | d
  · decide
  · simp only [resolveMaxDim]
    split
    · decide
    · omega

/-- Claim C5 (amended): for a valid oversized image (image library
available), `prepare_for_vlm` writes exactly one derivative, under the
`processed_` filename prefix in the processor's snapshots directory
(which coincides with the original's directory only when the original
lives there — see the counterexample), returns that path together with
the before/after dimensions message, the derivative's longer side equals
the configured maximum dimension, and its aspect ratio matches the
original's to within one pixel on the rounded side. -/
theorem c5_prepare_resize (proc : Processor) (fs : FS) (p : ImageProcessor.FilePath)
    (md : Option Nat) (info : FileInfo) (img : ImgInfo)
    (hfs : fs p = some info) (himg : info.img = .ok img)
    (hvalid : (validate_image true fs p).1 = true)
    (hbig : ¬ (img.width ≤ resolveMaxDim md ∧ img.height ≤ resolveMaxDim md)) :
    (prepare_for_vlm true proc fs p md).path =
      some ⟨proc.snapshots_dir, "processed_" ++ p.name⟩ ∧
    (prepare_for_vlm true proc fs p md).message =
      "Resized from " ++ toString img.width ++ "x" ++ toString img.height ++ " to " ++
        toString (resizeDims img.width img.height (resolveMaxDim md)).1 ++ "x" ++
        toString (resizeDims img.width img.height (resolveMaxDim md)).2 ∧
    (∃ m, (prepare_for_vlm true proc fs p md).writes =
      [(⟨proc.snapshots_dir, "processed_" ++ p.name⟩,
        ⟨(resizeDims img.width img.height (resolveMaxDim md)).1,
         (resizeDims img.width img.height (resolveMaxDim md)).2, m⟩)]) ∧
    max (resizeDims img.width img.height (resolveMaxDim md)).1
      (resizeDims img.width img.height (resolveMaxDim md)).2 = resolveMaxDim md ∧
    ((img.width * (resizeDims img.width img.height (resolveMaxDim md)).2 ≤
        img.height * (resizeDims img.width img.height (resolveMaxDim md)).1 ∧
      img.height * (resizeDims img.width img.height (resolveMaxDim md)).1 -
        img.width * (resizeDims img.width img.height (resolveMaxDim md)).2 <
        max img.width img.height) ∨
     (img.height * (resizeDims img.width img.height (resolveMaxDim md)).1 ≤
        img.width * (resizeDims img.width img.height (resolveMaxDim md)).2 ∧
      img.width * (resizeDims img.width img.height (resolveMaxDim md)).2 -
        img.height * (resizeDims img.width img.height (resolveMaxDim md)).1 <
        max img.width img.height)) := by
  have hpos : 0 < resolveMaxDim md := resolveMaxDim_pos md
  refine ⟨?_, ?_, ?_, ?_, ?_⟩
  · simp [prepare_for_vlm, hvalid, hfs, himg, hbig]
  · simp [prepare_for_vlm, hvalid, hfs, himg, hbig]
  · refine ⟨if img.mode = "RGBA" ∧ lowerStr (suffixOf ("processed_" ++ p.name)) ∈
        [".jpg", ".jpeg"] then "RGB" else img.mode, ?_⟩
    simp [prepare_for_vlm, hvalid, hfs, himg, hbig]
  · by_cases hgt : img.width > img.height
    · have hlt := (resizeDims_le img.width img.height (resolveMaxDim md) hpos
        (.inr hgt)).1 hgt
      simp only [resizeDims, if_pos hgt] at hlt ⊢
      omega
    · have hle := (resizeDims_le img.width img.height (resolveMaxDim md) hpos
        (.inl (by omega))).2 hgt
      simp only [resizeDims, if_neg hgt] at hle ⊢
      omega
  · by_cases hgt : img.width > img.height
    · left
      have hwpos : 0 < img.width := by omega
      have hdm := Nat.div_add_mod (img.height * resolveMaxDim md) img.width
      have hmod := Nat.mod_lt (img.height * resolveMaxDim md) hwpos
      have hmax : max img.width img.height = img.width := Nat.max_eq_left (by omega)
      simp only [resizeDims, if_pos hgt]
      rw [hmax]
      omega
    · right
      have hhpos : 0 < img.height := by omega
      have hdm := Nat.div_add_mod (img.width * resolveMaxDim md) img.height
      have hmod := Nat.mod_lt (img.width * resolveMaxDim md) hhpos
      have hmax : max img.width img.height = img.height := Nat.max_eq_right (by omega)
      simp only [resizeDims, if_neg hgt]
      rw [hmax]
      omega

/-- Witness for C5 resizing a 2048 by 1024 snapshot down to 1024 by 512. -/
theorem c5_prepare_resize_witness :
    (prepare_for_vlm true ⟨"media/snapshots"⟩
      (fun q => if q = ⟨"media/snapshots", "big.png"⟩ then
        some ⟨true, 5000, .ok ⟨2048, 1024, "RGB"⟩⟩ else none)
      ⟨"media/snapshots", "big.png"⟩ none).path =
      some ⟨"media/snapshots", "processed_big.png"⟩ ∧
    max (resizeDims 2048 1024 (resolveMaxDim none)).1
      (resizeDims 2048 1024 (resolveMaxDim none)).2 = resolveMaxDim none :=
  ⟨(c5_prepare_resize ⟨"media/snapshots"⟩ _ _ none ⟨true, 5000, .ok ⟨2048, 1024, "RGB"⟩⟩
      ⟨2048, 1024, "RGB"⟩ rfl rfl (by decide) (by decide)).1,
    (c5_prepare_resize ⟨"media/snapshots"⟩
      (fun q => if q = ⟨"media/snapshots", "big.png"⟩ then
        some ⟨true, 5000, .ok ⟨2048, 1024, "RGB"⟩⟩ else none)
      ⟨"media/snapshots", "big.png"⟩ none ⟨true, 5000, .ok ⟨2048, 1024, "RGB"⟩⟩
      ⟨2048, 1024, "RGB"⟩ rfl rfl (by decide) (by decide)).2.2.2.1⟩

/-- Normal form of the no-context chat prompt. -/
theorem build_chat_prompt_none_data (q : String) :
    (build_chat_prompt q none).data =
      "User Question: ".data ++ (q.data ++
        ("\n".data ++ ("".data ++ ("\n".data ++ CHAT_CLOSING_INSTRUCTIONS.data)))) := by
  simp [build_chat_prompt, joinLines, String.data_append_eq, List.append_assoc]

set_option maxRecDepth 8192 in
/-- Counterexample to claim C6 as stated: a question that itself
contains the context-block header makes the no-context prompt contain
the header, so "does not contain the context-block header" fails for
that question. -/
theorem c6_build_chat_prompt_counterexample :
    ContainsSub (build_chat_prompt "Dashboard Context:" none) CONTEXT_HEADER := by
  rw [ContainsSub, build_chat_prompt_none_data]
  exact ⟨"User Question: ".data,
    "\n".data ++ ("".data ++ ("\n".data ++ CHAT_CLOSING_INSTRUCTIONS.data)),
    by decide⟩

/-- Claim C6 (amended): the no-context chat prompt contains the literal
question, and contains the context-block header only if the question
itself does (the unamended universal claim fails at a question equal to
the header: see the counterexample); with a context supplied, the prompt
contains one price line per commodity entry carrying a price, whose
fractional part is exactly two digits. -/
theorem c6_build_chat_prompt (q : String) (ctx : ChatContext) (name : String)
    (price : Nat) (hmem : (name, some price) ∈ ctx.commodities)
    (hq : ¬ ContainsSub q CONTEXT_HEADER) :
    ContainsSub (build_chat_prompt q none) q ∧
    ¬ ContainsSub (build_chat_prompt q none) CONTEXT_HEADER ∧
    ContainsSub (build_chat_prompt q (some ctx)) ("- " ++ name ++ ": $" ++ fmt2f price) ∧
    (fracPart price).length = 2 := by
  refine ⟨?_, ?_, ?_, rfl⟩
  · show q.data <:+: (build_chat_prompt q none).data
    rw [build_chat_prompt_none_data]
    exact ⟨"User Question: ".data,
      "\n".data ++ ("".data ++ ("\n".data ++ CHAT_CLOSING_INSTRUCTIONS.data)),
      by simp [List.append_assoc]⟩
  · intro hcon
    rw [ContainsSub, build_chat_prompt_none_data] at hcon
    rcases infix_append_cases hcon with h1 | h1 | ⟨l1, l2, heq, hne1, hne2, hsuf, hpre⟩
    · have hd : 'D' ∈ "User Question: ".data :=
        h1.subset (show 'D' ∈ CONTEXT_HEADER.data by decide)
      exact absurd hd (by decide)
    · rcases infix_append_cases h1 with h2 | h2 | ⟨l1, l2, heq, hne1, hne2, hsuf, hpre⟩
      · exact hq h2
      · have hd : 'D' ∈ "\n".data ++ ("".data ++ ("\n".data ++
            CHAT_CLOSING_INSTRUCTIONS.data)) :=
          h2.subset (show 'D' ∈ CONTEXT_HEADER.data by decide)
        exact absurd hd (by decide)
      · rcases l2 with - | ⟨c, cs⟩
        · exact absurd rfl hne2
        · have hc : c = '\n' := by
            have hh := head_eq_of_prefix hpre (by simp)
            rw [show ("\n".data ++ ("".data ++ ("\n".data ++
              CHAT_CLOSING_INSTRUCTIONS.data))).head? = some '\n' from by decide] at hh
            simpa using hh
          have hnl : '\n' ∈ CONTEXT_HEADER.data := by
            rw [heq, ← hc]
            exact List.mem_append_right _ (List.mem_cons_self _ _)
          exact absurd hnl (by decide)
    · rcases l1 with - | ⟨c, cs⟩
      · exact absurd rfl hne1
      · have hc : c = 'D' := by
          have hh : CONTEXT_HEADER.data.head? = some c := by
            rw [heq]
            rfl
          rw [show CONTEXT_HEADER.data.head? = some 'D' from by decide] at hh
          simpa using hh.symm
        have hd : 'D' ∈ "User Question: ".data :=
          hsuf.subset (hc ▸ List.mem_cons_self c cs)
        exact absurd hd (by decide)
  · apply containsSub_of_mem
    simp only [build_chat_prompt, List.mem_append]
    left; left; right
    exact List.mem_filterMap.mpr ⟨(name, some price), hmem, rfl⟩

/-- Witness for C6 with a one-commodity context. -/
theorem c6_build_chat_prompt_witness :
    ContainsSub (build_chat_prompt "is gold up?" none) "is gold up?" ∧
    ¬ ContainsSub (build_chat_prompt "is gold up?" none) CONTEXT_HEADER ∧
    ContainsSub (build_chat_prompt "is gold up?"
      (some ⟨some "2024-01-01", [("Gold", some 204512)]⟩))
      ("- " ++ "Gold" ++ ": $" ++ fmt2f 204512) ∧
    (fracPart 204512).length = 2 :=
  c6_build_chat_prompt "is gold up?" ⟨some "2024-01-01", [("Gold", some 204512)]⟩
    "Gold" 204512 (by decide) (by decide)

/-- Counterexample to claim C7 as stated: the analyze endpoint also
persists its result onto the snapshot record — a successful analysis of
a snapshot with no stored summary writes the returned text into
`ai_summary` and marks it analyzed, so the auto-summarize-on-save path
is not the only operation that persists. -/
theorem c7_summary_persistence_counterexample :
    (vlm_analyze ⟨"http://localhost:11434", "llava", 120⟩
      ⟨.reply 200 (.ok ["llava"]),
        fun p => if p = "media/snapshots/a.png" then some [1, 2, 3] else none,
        .reply 200 (.ok ⟨some "Markets look calm.", none, some 5, some 9⟩)⟩
      [⟨1, 10, some "media/snapshots/a.png", "", false, ""⟩]
      none none).snapshot_after =
      some ⟨1, 10, some "media/snapshots/a.png", "Markets look calm.", true, ""⟩ ∧
    (⟨1, 10, some "media/snapshots/a.png", "Markets look calm.", true, ""⟩ :
        Views.Snapshot) ≠
      ⟨1, 10, some "media/snapshots/a.png", "", false, ""⟩ := by
  constructor
  · decide
  · decide

/-- Claim C7 (amended): the auto-summarize write-back stores the
returned text and marks the snapshot analyzed on success, and records
the error with the analyzed flag on failure; the chat endpoint never
changes the resolved snapshot record; the analyze endpoint returns the
record unchanged except that — when the stored summary is empty — a
successful analysis writes its text into the summary field and sets the
analyzed flag (the unamended "no other operation persists" fails there:
see the counterexample). -/
theorem c7_summary_persistence (c : Client) (w : World) (db : List Views.Snapshot)
    (ctx : Option ChatContext) (q : String) (sid : Option Nat)
    (s : Views.Snapshot) (a : Option String) (path : String) :
    (s.image = some path →
      ((generate_snapshot_summary c w path).success = true →
        (generate_ai_summary_for_snapshot c w s).ai_summary =
          (generate_snapshot_summary c w path).response.getD "" ∧
        (generate_ai_summary_for_snapshot c w s).ai_analyzed = true ∧
        (generate_ai_summary_for_snapshot c w s).ai_analysis_error = "") ∧
      ((generate_snapshot_summary c w path).success = false →
        (generate_ai_summary_for_snapshot c w s).ai_summary = s.ai_summary ∧
        (generate_ai_summary_for_snapshot c w s).ai_analyzed = true ∧
        (generate_ai_summary_for_snapshot c w s).ai_analysis_error =
          (generate_snapshot_summary c w path).error.getD "Unknown error")) ∧
    (∀ t, resolveSnapshot db sid
        "No snapshots available. Please save a dashboard snapshot first." = .ok t →
      (vlm_chat c w db ctx q sid).snapshot_after = none ∨
      (vlm_chat c w db ctx q sid).snapshot_after = some t) ∧
    (∀ t, resolveSnapshot db sid "No snapshots available" = .ok t →
      (vlm_analyze c w db sid a).snapshot_after = some t ∨
      (t.ai_summary = "" ∧ ∃ text, (vlm_analyze c w db sid a).snapshot_after =
        some { t with ai_summary := text, ai_analyzed := true })) := by
  refine ⟨?_, ?_, ?_⟩
  · intro him
    constructor
    · intro hsuc
      simp [generate_ai_summary_for_snapshot, him, applySummaryResult, hsuc]
    · intro hsuc
      simp [generate_ai_summary_for_snapshot, him, applySummaryResult, hsuc]
  · intro t hres
    by_cases hq : pyStrip q = ""
    · left
      simp [vlm_chat, hq]
    · right
      simp only [vlm_chat, hq, if_false, hres]
      rcases him : t.image with - | ipath
      · simp
      · by_cases hfs : (w.fs ipath).isNone
        · simp [hfs]
        · simp only [hfs, Bool.false_eq_true, if_false]
          split <;> rfl
  · intro t hres
    simp only [vlm_analyze, hres]
    rcases him : t.image with - | ipath
    · left
      simp
    · by_cases hfs : (w.fs ipath).isNone
      · left
        simp [hfs]
      · by_cases hsuc : (analyze_image c w ipath (analysisPrompt (a.getD "full"))
          (some FINANCIAL_ANALYST_SYSTEM)).success = true
        · by_cases hsum : t.ai_summary = ""
          · right
            refine ⟨hsum, (analyze_image c w ipath (analysisPrompt (a.getD "full"))
              (some FINANCIAL_ANALYST_SYSTEM)).response.getD "", ?_⟩
            simp [hfs, hsuc, hsum]
          · left
            simp [hfs, hsuc, hsum]
        · left
          simp [hfs, hsuc]

/-- Witness for C7: chat against an unreachable backend leaves the one
stored snapshot untouched. -/
theorem c7_summary_persistence_witness :
    (vlm_chat ⟨"http://localhost:11434", "llava", 120⟩
        ⟨.connError, fun _ => none, .connError⟩
        [⟨1, 10, some "p.png", "old", true, ""⟩] none "is gold up?" none).snapshot_after =
      none ∨
    (vlm_chat ⟨"http://localhost:11434", "llava", 120⟩
        ⟨.connError, fun _ => none, .connError⟩
        [⟨1, 10, some "p.png", "old", true, ""⟩] none "is gold up?" none).snapshot_after =
      some ⟨1, 10, some "p.png", "old", true, ""⟩ :=
  (c7_summary_persistence ⟨"http://localhost:11434", "llava", 120⟩
    ⟨.connError, fun _ => none, .connError⟩ [⟨1, 10, some "p.png", "old", true, ""⟩]
    none "is gold up?" none ⟨1, 10, some "p.png", "old", true, ""⟩ none "p.png").2.1
    ⟨1, 10, some "p.png", "old", true, ""⟩ rfl

end VTSR
